import Mathlib

/-!
Verification of the EinsatzJS release-deployment orchestrator.

This file shallowly embeds the pure content of the repository's JavaScript
sources and proves (or refutes) the frozen claims about them.  Each
definition carries a pointer to the source location it is translated from:

* `asyncWrapper`           from `src/lib/utils/asyncWrapper.js`
* `deployerMapping`        from `src/lib/Shokan.js` / `lib/Einsatz.js` (part_010)
* `handleError`            from `src/lib/utils/handleError.js`
* `einsatzDeploy`          from `lib/Einsatz.js` (part_010), `deploy()`
* `einsatzRollback`        from `lib/Einsatz.js` (part_010), `rollback()`
* `einsatzSwitchRelease`   from `lib/Einsatz.js` (part_010), `switchRelease()`
* `symlinkRelease`         from `src/lib/deployActions/symlinkActions.js`
* `cleanupOldReleases`     from `src/lib/deployer/AbstractDeployer.js`
* `shokanDeploy`           from `src/lib/Shokan.js`, `deploy()`
* `getReleaseIds`          from `lib/Einsatz.js` (part_010), `getReleaseIds()`

JavaScript strings are modelled as `String` where the claims treat them as
opaque tokens and as `List Char` where character-level slicing matters;
machine behaviour that depends on scoping rules of ECMAScript modules
(strict mode) is made explicit through scope-environment lookups.
-/

/-- Severity with which the remote executor logs a stderr chunk
(`src/lib/utils/asyncWrapper.js`, lines 29-34). -/
inductive Severity where
  | error
  | warning
deriving DecidableEq

/-- Substring test on character lists, the semantics of JavaScript
`String.prototype.includes`: true when `needle` occurs contiguously in
`hay` (the empty needle always occurs). -/
def charListContains : List Char → List Char → Bool
  | [], needle => needle.isEmpty
  | c :: t, needle => needle.isPrefixOf (c :: t) || charListContains t needle

/-- Classification of one stderr data chunk, translated from
`asyncWrapper.js` line 30: `errorOutput.toLowerCase().includes("error")`
selects the error logger, anything else the warning logger. -/
def stderrSeverity (chunk : String) : Severity :=
  if charListContains (chunk.data.map Char.toLower) (String.data ("error")) then
    Severity.error
  else
    Severity.warning

/-- Observable behaviour of one remote process run by `conn.exec`: the
stdout and stderr data chunks that arrived and the exit code reported by
the close event. -/
structure ExecRun where
  stdoutChunks : List String
  stderrChunks : List String
  exitCode : Int
deriving DecidableEq

/-- Outcome of the single `conn.exec` call inside `asyncWrapper`: either
the exec callback itself reported an error, or a process ran. -/
inductive ExecOutcome where
  | execFailed (msg : String)
  | ran (r : ExecRun)
deriving DecidableEq

/-- Settled state of the promise returned by `asyncWrapper`. -/
inductive AsyncResult where
  | resolved (output : String)
  | rejected (msg : String)
deriving DecidableEq

/-- Translated from `src/lib/utils/asyncWrapper.js` lines 6-49: the
accumulated stdout is `stdoutData`, the accumulated stderr `stderrData`;
on close with a non-zero code the promise rejects with the code and the
trimmed stderr, otherwise it resolves with the trimmed stdout; a callback
error rejects directly. -/
def asyncWrapper (_command : String) (o : ExecOutcome) : AsyncResult :=
  match o with
  | ExecOutcome.execFailed m => AsyncResult.rejected (("Command failed: ") ++ m)
  | ExecOutcome.ran r =>
      if r.exitCode ≠ 0 then
        AsyncResult.rejected
          (("Command failed with code ") ++ toString r.exitCode ++ (": ")
            ++ (String.join r.stderrChunks).trim)
      else
        AsyncResult.resolved ((String.join r.stdoutChunks).trim)

/-- Log events emitted by the stderr handler of `asyncWrapper` (lines
25-35): one classified entry per data chunk, in arrival order. -/
def stderrLog (r : ExecRun) : List (Severity × String) :=
  r.stderrChunks.map (fun c => (stderrSeverity c, c))

/-- Remote processes spawned by one invocation of `asyncWrapper`: the
body calls `conn.exec` exactly once (line 8) and contains no retry path,
so the spawn list is the singleton of the given command. -/
def asyncWrapperExecCalls (command : String) (_o : ExecOutcome) : List String :=
  [command]

/-- Helper projection: whether an `AsyncResult` is a resolution. -/
def AsyncResult.isResolved : AsyncResult → Bool
  | AsyncResult.resolved _ => true
  | AsyncResult.rejected _ => false

/-- The four deployment strategy implementations named by the static
mapping in `src/lib/Shokan.js` lines 36-41 and `lib/Einsatz.js`
(part_010) lines 25-29. -/
inductive DeployerKind where
  | git
  | copy
  | remoteCache
  | remoteSync
deriving DecidableEq

/-- Translated from the `deployerMapping` object literal: property lookup
on the object yields the mapped class for the four known keys and
`undefined` (here `none`) for every other string. -/
def deployerMapping (k : String) : Option DeployerKind :=
  if k = "git" then some DeployerKind.git
  else if k = "copy" then some DeployerKind.copy
  else if k = "remoteCache" then some DeployerKind.remoteCache
  else if k = "remoteSync" then some DeployerKind.remoteSync
  else none

/-- Translated from the `Shokan` constructor, `src/lib/Shokan.js` lines
87-93: the deployer is instantiated from the mapping, and a missing
entry throws `Unsupported deploy method` before any connection exists. -/
def shokanConstructor (deployVia : String) : Except String DeployerKind :=
  match deployerMapping deployVia with
  | some d => Except.ok d
  | none => Except.error (("Unsupported deploy method: ") ++ deployVia)

/-- Helper projection: whether an `Except` settles successfully. -/
def exceptIsOk : Except String DeployerKind → Bool
  | Except.ok _ => true
  | Except.error _ => false

/-- Value of an argument at a JavaScript call site: either `undefined`
(parameter not supplied) or an error object with the fields that
`handleError` inspects. -/
inductive JsArg where
  | undef
  | errObj (isDeploymentError : Bool) (isSSHError : Bool)
      (stdout : Option String) (message : Option String)
deriving DecidableEq

/-- Message of the TypeError raised when a property of `undefined` is
read. -/
def typeErrorStdoutMsg : String :=
  "TypeError: Cannot read properties of undefined (reading stdout)"

/-- Translated from `src/lib/utils/handleError.js` lines 11-33.  The
function takes three parameters `(task, context, error)` and only ever
reads `error`: the `instanceof` tests on `undefined` are false, after
which line 24 evaluates `error.stdout`; when the caller supplied no third
argument that read throws a TypeError, otherwise every branch only logs
and the function returns normally. -/
def handleError (_task : String) (_context : JsArg) (error : JsArg) :
    Except String Unit :=
  match error with
  | JsArg.undef => Except.error typeErrorStdoutMsg
  | JsArg.errObj _ _ _ _ => Except.ok ()

/-- External behaviour driving one `Einsatz.deploy` run: whether the SSH
connection is established, whether the agent-forwarding test passes, and
whether the selected deployer's own `deploy()` resolves. -/
structure RemoteBehavior where
  connectOk : Bool
  agentOk : Bool
  deployOk : Bool
deriving DecidableEq

/-- Settled state of the promise returned by an async function. -/
inductive PromiseResult where
  | resolved
  | rejected (msg : String)
deriving DecidableEq

/-- Observable outcome of one `Einsatz.deploy` run. -/
structure EinsatzDeployRun where
  result : PromiseResult
  connEstablished : Bool
  connClosed : Bool
  deployerRan : Option DeployerKind
deriving DecidableEq

/-- Try-block of `Einsatz.deploy` (`lib/Einsatz.js`, part_010, lines
87-118), as the triple (was `this.conn` assigned, which deployer's
`deploy()` was invoked, body outcome): `establishConnection` may reject
before `this.conn` is set; `testAgentForwarding` may throw; an unmapped
`deployVia` throws `Unsupported deploy method` at line 106 before any
deployer is constructed; otherwise the selected deployer runs and its
failure is the body's failure. -/
def einsatzDeployBody (deployVia : String) (b : RemoteBehavior) :
    Bool × Option DeployerKind × Except String Unit :=
  if b.connectOk then
    if b.agentOk then
      match deployerMapping deployVia with
      | none =>
          (true, none, Except.error (("Unsupported deploy method: ") ++ deployVia))
      | some d =>
          if b.deployOk then (true, some d, Except.ok ())
          else (true, some d, Except.error ("deployer deploy failed"))
    else (true, none, Except.error ("Agent forwarding test failed"))
  else (false, none, Except.error ("SSH Connection Error"))

/-- Translated from `Einsatz.deploy` (part_010, lines 86-127).  The catch
block calls `handleError("Deployment failed: ", error)` — two arguments
for a three-parameter function, so `handleError`'s `error` parameter is
`undefined` and the caught error travels in the unused `context` slot.
Whatever the catch block does, the finally block runs and closes
`this.conn` exactly when it was assigned; if the catch block itself
throws, the promise rejects with that secondary error. -/
def einsatzDeploy (deployVia : String) (b : RemoteBehavior) : EinsatzDeployRun :=
  match einsatzDeployBody deployVia b with
  | (est, ran, Except.ok ()) =>
      { result := PromiseResult.resolved, connEstablished := est,
        connClosed := est, deployerRan := ran }
  | (est, ran, Except.error e) =>
      match handleError ("Deployment failed: ")
          (JsArg.errObj false false none (some e)) JsArg.undef with
      | Except.ok () =>
          { result := PromiseResult.resolved, connEstablished := est,
            connClosed := est, deployerRan := ran }
      | Except.error t =>
          { result := PromiseResult.rejected t, connEstablished := est,
            connClosed := est, deployerRan := ran }

/-- Remote project directory state that the release-lifecycle operations
read and mutate: the token the `current` symlink names (if the link
exists), the release tokens under `releases/` in listing order, and the
lines of `revisions.log`. -/
structure ProjectState where
  current : Option String
  releases : List String
  revisionLog : List String
deriving DecidableEq

/-- Result of one lifecycle operation: the project state it leaves behind
and the error messages its catch blocks logged. -/
structure OpRun where
  state : ProjectState
  stepErrors : List String
deriving DecidableEq

/-- Names bound in the module scope of `lib/Einsatz.js` (part_010, lines
1-29): its imports and its own class declaration.  In particular `fs` is
not among them — the file never imports the `fs` module. -/
def einsatzModuleScope : List String :=
  ["chalk", "Client", "sectionLogger", "actionLogger", "establishConnection",
   "testAgentForwarding", "handleError", "asyncWrapper", "CopyDeployer",
   "GitDeployer", "RemoteCacheDeployer", "RemoteSyncDeployer", "SSHError",
   "deployerMapping", "Einsatz"]

/-- Strict-mode name resolution: reading (or assigning) an identifier
that no enclosing scope declares throws a ReferenceError. -/
def lookupName (scope : List String) (x : String) : Except String Unit :=
  if x ∈ scope then Except.ok ()
  else Except.error (("ReferenceError: ") ++ x ++ (" is not defined"))

/-- JavaScript `Array.prototype.indexOf`: index of the first occurrence
or `-1`. -/
def jsIndexOf (l : List String) (x : String) : Int :=
  match l.findIdx? (fun y => y == x) with
  | some n => (n : Int)
  | none => -1

/-- Ways the first inner try block of `Einsatz.rollback` (part_010,
lines 238-294) can leave the handler. -/
inductive RollbackStep1 where
  | threw (msg : String)
  | nothingToRollback
  | notFoundInList
deriving DecidableEq

/-- Translated from lines 238-294 of part_010.  Line 241 evaluates
`fs.realpathSync(currentPath)`, and `fs` is not declared in any enclosing
scope of `lib/Einsatz.js`, so this throws a ReferenceError before any
remote command runs.  The remainder is translated nonetheless: were `fs`
in scope, a missing `current` link would throw ENOENT; the listing is
parsed into `releases`; `currentIndex === 0` returns with the
nothing-to-roll-back report, and `currentIndex > 0` would execute
`previousRelease = releases[currentIndex - 1]` (line 276) — an assignment
to an identifier never declared with let/const/var, which in an ES module
(strict mode) throws a ReferenceError of its own. -/
def rollbackStep1 (st : ProjectState) : RollbackStep1 :=
  match lookupName einsatzModuleScope ("fs") with
  | Except.error m => RollbackStep1.threw m
  | Except.ok () =>
      match st.current with
      | none => RollbackStep1.threw ("ENOENT: no such file or directory")
      | some currentRelease =>
          let currentIndex := jsIndexOf st.releases currentRelease
          if currentIndex = 0 then RollbackStep1.nothingToRollback
          else if currentIndex > 0 then
            RollbackStep1.threw ("ReferenceError: previousRelease is not defined")
          else RollbackStep1.notFoundInList

/-- Names visible inside the ready-handler of `rollback` outside the
first inner try block: the module scope plus the handler-level constant
`conn`.  Neither `previousRelease` (assigned but never declared) nor
`currentRelease` (a `const` confined to the first try's block scope) is
among them. -/
def rollbackHandlerScope : List String := einsatzModuleScope ++ [("conn")]

/-- Translated from `Einsatz.rollback` (part_010, lines 219-343).  The
two early `return`s leave the state untouched.  On a step-1 throw the
handler continues: the second try (lines 296-311) reads `previousRelease`
to build the `ln -s` command and throws a ReferenceError before any
remote command is issued; the third try (lines 313-329) reads
`currentRelease` for the `echo ... >> revisions.log` command and throws
likewise, so nothing is appended.  Every error is caught and logged and
the finally block closes the connection. -/
def einsatzRollback (st : ProjectState) : OpRun :=
  match rollbackStep1 st with
  | RollbackStep1.nothingToRollback => { state := st, stepErrors := [] }
  | RollbackStep1.notFoundInList => { state := st, stepErrors := [] }
  | RollbackStep1.threw m =>
      let e1 := ("Error getting releases: ") ++ m
      let e2 :=
        match lookupName rollbackHandlerScope ("previousRelease") with
        | Except.error m2 => ("Error symlinking previous release: ") ++ m2
        | Except.ok () => ("")
      let e3 :=
        match lookupName rollbackHandlerScope ("currentRelease") with
        | Except.error m3 => ("Error writing revisions log: ") ++ m3
        | Except.ok () => ("")
      { state := st, stepErrors := [e1, e2, e3] }

/-- Names visible inside the ready-handler of `switchRelease` outside the
first inner try block: the module scope, the handler constant `conn` and
the method parameter `release`.  `currentRelease` is a `const` confined
to the first try's block (lines 377-398) and is not among them. -/
def switchHandlerScope : List String :=
  einsatzModuleScope ++ [("conn"), ("release")]

/-- Effect on the `current` link of the remote command
`ln -s <target> <link>` — no `-f`/`-n` flags, so the command exits 1
with `File exists` when the link is already present and only creates the
link (possibly dangling) when it is absent. -/
def lnsCurrent (st : ProjectState) (tok : String) : ProjectState × List String :=
  match st.current with
  | some _ =>
      (st, [("Error symlinking requested release: Command failed with code 1: ")
             ++ ("ln: failed to create symbolic link: File exists")])
  | none => ({ st with current := some tok }, [])

/-- Translated from `Einsatz.switchRelease` (part_010, lines 358-447).
The first try reads `fs.realpathSync` with `fs` not in scope — a
ReferenceError, caught and logged.  The second try issues
`ln -s <projectFolder>/releases/<release> <projectFolder>/current`
(line 403), which fails whenever `current` already exists.  The third
try builds the revision-log `echo` from `currentRelease`, block-scoped to
the first try, so it throws a ReferenceError and nothing is ever appended
to `revisions.log`. -/
def einsatzSwitchRelease (st : ProjectState) (release : String) : OpRun :=
  let e1 :=
    match lookupName switchHandlerScope ("fs") with
    | Except.error m => [("Error getting current release: ") ++ m]
    | Except.ok () => []
  let step2 := lnsCurrent st release
  let e3 :=
    match lookupName switchHandlerScope ("currentRelease") with
    | Except.error m => [("Error writing revisions log: ") ++ m]
    | Except.ok () => []
  { state := step2.1, stepErrors := e1 ++ step2.2 ++ e3 }

/-- Translated from `symlinkRelease`
(`src/lib/deployActions/symlinkActions.js`, line 142): the promotion of a
release runs `ln -sfn <releaseDir> <currentSymlink>`, which force-replaces
an existing `current` link (or creates it) in one command, so afterwards
the pointer names the promoted release. -/
def symlinkRelease (st : ProjectState) (releaseToken : String) : ProjectState :=
  { st with current := some releaseToken }

/-- Names deleted by the cleanup command of
`src/lib/deployer/AbstractDeployer.js` lines 100-102:
`ls -1t | tail -n +(keepCount+1)` prints the listing from line
keepCount+1 on, one deleted directory per line. -/
def cleanupDeleted (listing : List String) (keepCount : Nat) : List String :=
  listing.drop keepCount

/-- Translated from `cleanupOldReleases` (`AbstractDeployer.js`, lines
89-111): after `xargs -I x rm -rf x` removes every name printed by
`tail`, the surviving release directories are exactly the listed names
not among the deleted ones.  `listing` is the output of `ls -1t` over
`releases/`, newest first. -/
def cleanupOldReleases (listing : List String) (keepCount : Nat) : List String :=
  listing.filter (fun t => !((cleanupDeleted listing keepCount).contains t))

/-- The steps of `Shokan.deploy` after the connection is established
(`src/lib/Shokan.js`, lines 121-381), one constructor per try block in
source order. -/
inductive StepName where
  | agentTest
  | checkDirectories
  | checkLinkedDirs
  | makeLinkedDirs
  | createReleaseDir
  | deployerDeploy
  | setCurrentRevision
  | setCurrentRevisionTime
  | symlinkLinkedFiles
  | symlinkLinkedDirs
  | npmConfig
  | npmInstall
  | assetsPrecompile
  | backupPackageJson
  | migrate
  | migrating
  | symlinkRelease
  | restartApplication
  | cleanupOldReleases
  | logRevision
  | symlinkPublicResources
deriving DecidableEq

/-- Failure policy of each step, read off the shape of its catch block in
`Shokan.deploy`: through `setCurrentRevisionTime` the catch rethrows
(each such catch invokes the unbound name `errorHandler` and then
`throw error`, so either way the exception escapes and aborts the
pipeline); from `symlinkLinkedFiles` on the catch only calls
`actionLogger.error` and falls through to the next step. -/
def isFatalStep : StepName → Bool
  | StepName.agentTest => true
  | StepName.checkDirectories => true
  | StepName.checkLinkedDirs => true
  | StepName.makeLinkedDirs => true
  | StepName.createReleaseDir => true
  | StepName.deployerDeploy => true
  | StepName.setCurrentRevision => true
  | StepName.setCurrentRevisionTime => true
  | _ => false

/-- The pipeline in the order the try blocks appear in `Shokan.deploy`. -/
def shokanPipeline : List StepName :=
  [StepName.agentTest, StepName.checkDirectories, StepName.checkLinkedDirs,
   StepName.makeLinkedDirs, StepName.createReleaseDir, StepName.deployerDeploy,
   StepName.setCurrentRevision, StepName.setCurrentRevisionTime,
   StepName.symlinkLinkedFiles, StepName.symlinkLinkedDirs, StepName.npmConfig,
   StepName.npmInstall, StepName.assetsPrecompile, StepName.backupPackageJson,
   StepName.migrate, StepName.migrating, StepName.symlinkRelease,
   StepName.restartApplication, StepName.cleanupOldReleases,
   StepName.logRevision, StepName.symlinkPublicResources]

/-- Execution of a step sequence against a failure profile `fails`: a
failing fatal step is attempted and then aborts (nothing later runs); a
failing best-effort step is attempted, logged and passed over.  Returns
the attempted steps in order and whether the end of the sequence was
reached. -/
def runPipeline (fails : StepName → Bool) : List StepName → List StepName × Bool
  | [] => ([], true)
  | s :: rest =>
      if fails s && isFatalStep s then ([s], false)
      else
        let r := runPipeline fails rest
        (s :: r.1, r.2)

/-- Observable outcome of one `Shokan.deploy` run. -/
structure ShokanRun where
  executed : List StepName
  completed : Bool
  connClosed : Bool
deriving DecidableEq

/-- Translated from `Shokan.deploy` (lines 108-391): when the connection
fails nothing runs and `this.conn` is unset, so the finally block closes
nothing; otherwise the pipeline runs against the failure profile and the
finally block (lines 384-390) closes the connection on every exit path,
including an abort. -/
def shokanDeploy (connectOk : Bool) (fails : StepName → Bool) : ShokanRun :=
  if connectOk then
    let r := runPipeline fails shokanPipeline
    { executed := r.1, completed := r.2, connClosed := true }
  else
    { executed := [], completed := false, connClosed := false }

/-- Whitespace for the purposes of JavaScript `String.prototype.trim`
(the code points that occur in `ls` output). -/
def isJsWhitespace (c : Char) : Bool :=
  c = ' ' || c = '\t' || c = '\n' || c = '\r'

/-- JavaScript `trim` on a character list: strip leading and trailing
whitespace. -/
def jsTrimChars (s : List Char) : List Char :=
  ((s.dropWhile isJsWhitespace).reverse.dropWhile isJsWhitespace).reverse

/-- JavaScript `split("\n")` on a character list: the segments between
newline characters (never empty as a list of segments). -/
def splitOnNl : List Char → List (List Char)
  | [] => [[]]
  | c :: rest =>
      let r := splitOnNl rest
      if c = '\n' then [] :: r
      else
        match r with
        | [] => [[c]]
        | h :: t => (c :: h) :: t

/-- JavaScript `replace("/", "")`: remove the first occurrence of the
slash, leave everything else unchanged. -/
def removeFirstSlash : List Char → List Char
  | [] => []
  | c :: t => if c = '/' then t else c :: removeFirstSlash t

/-- JavaScript `lastIndexOf` of a character: greatest index of an
occurrence, `-1` when absent. -/
def jsLastIndexOfChar (c : Char) (s : List Char) : Int :=
  match s.reverse.findIdx? (fun x => x == c) with
  | some i => (s.length : Int) - 1 - (i : Int)
  | none => -1

/-- JavaScript `String.prototype.slice` with integer arguments: negative
indices count from the end, results are clamped to the string. -/
def jsSlice (l : List Char) (start stop : Int) : List Char :=
  (l.take
      (if stop < 0 then max ((l.length : Int) + stop) 0
       else min stop ((l.length : Int))).toNat).drop
    (if start < 0 then max ((l.length : Int) + start) 0
     else min start ((l.length : Int))).toNat

/-- Translated from `Einsatz.getReleaseIds` (part_010, lines 171-174):
the `ls -d .../releases/*/` response is split on newlines, blank lines
are dropped, and each remaining line is trimmed and has its first slash
removed. -/
def parseDirectories (response : List Char) : List (List Char) :=
  ((splitOnNl response).filter (fun line => !(jsTrimChars line).isEmpty)).map
    (fun line => removeFirstSlash (jsTrimChars line))

/-- Translated from part_010 line 179:
`path.slice(path.lastIndexOf("/") - 14, -1)`. -/
def extractToken (path : List Char) : List Char :=
  jsSlice path (jsLastIndexOfChar '/' path - 14) (-1)

/-- Translated from `Einsatz.getReleaseIds` (part_010, lines 140-206),
pure core: the token pushed for each directory entry, in listing order. -/
def getReleaseIds (response : List Char) : List (List Char) :=
  (parseDirectories response).map extractToken

theorem charListContains_iff (hay needle : List Char) :
    charListContains hay needle = true ↔ ∃ pre post, hay = pre ++ (needle ++ post) := by
  induction hay with
  | nil =>
      simp only [charListContains, List.isEmpty_iff]
      constructor
      · rintro rfl; exact ⟨[], [], rfl⟩
      · rintro ⟨pre, post, h⟩
        have h2 := h.symm
        simp only [List.append_eq_nil] at h2
        exact h2.2.1
  | cons c t ih =>
      simp only [charListContains, Bool.or_eq_true]
      constructor
      · rintro (hpre | hrec)
        · obtain ⟨post, hpost⟩ := List.isPrefixOf_iff_prefix.mp hpre
          exact ⟨[], post, by simp [hpost.symm]⟩
        · obtain ⟨pre, post, h⟩ := ih.mp hrec
          exact ⟨c :: pre, post, by simp [h]⟩
      · rintro ⟨pre, post, h⟩
        cases pre with
        | nil =>
            left
            apply List.isPrefixOf_iff_prefix.mpr
            exact ⟨post, by simpa using h.symm⟩
        | cons p ps =>
            right
            apply ih.mpr
            refine ⟨ps, post, ?_⟩
            have h2 : c :: t = p :: (ps ++ (needle ++ post)) := by simpa using h
            exact (List.cons_eq_cons.mp h2).2

theorem contains_eq_false_of_not_mem {α : Type} [BEq α] [LawfulBEq α]
    (l : List α) (x : α) (h : x ∉ l) :
    l.contains x = false := by
  rw [Bool.eq_false_iff]
  intro hc
  exact h (List.elem_iff.mp hc)

theorem contains_eq_true_of_mem {α : Type} [BEq α] [LawfulBEq α]
    (l : List α) (x : α) (h : x ∈ l) :
    l.contains x = true :=
  List.elem_iff.mpr h

theorem cleanup_eq_take (l : List String) (k : Nat) (h : l.Nodup) :
    cleanupOldReleases l k = l.take k := by
  unfold cleanupOldReleases cleanupDeleted
  have hsplit : l.take k ++ l.drop k = l := List.take_append_drop k l
  have hnd : (l.take k ++ l.drop k).Nodup := by rw [hsplit]; exact h
  rw [List.nodup_append] at hnd
  have h1 : (l.take k).filter (fun t => !((l.drop k).contains t)) = l.take k := by
    apply List.filter_eq_self.mpr
    intro a ha
    have hnm : a ∉ l.drop k := hnd.2.2 ha
    rw [contains_eq_false_of_not_mem _ _ hnm]
    rfl
  have h2 : (l.drop k).filter (fun t => !((l.drop k).contains t)) = [] := by
    apply List.filter_eq_nil_iff.mpr
    intro a ha
    rw [contains_eq_true_of_mem _ _ ha]
    simp
  have hstep : l.filter (fun t => !((l.drop k).contains t))
      = (l.take k ++ l.drop k).filter (fun t => !((l.drop k).contains t)) := by
    rw [hsplit]
  rw [hstep, List.filter_append, h1, h2, List.append_nil]

theorem sorted_take_drop_lt (l : List String) (k : Nat)
    (hs : l.Pairwise (fun a b => b < a)) :
    ∀ s ∈ l.take k, ∀ d ∈ l.drop k, d < s := by
  have hp : (l.take k ++ l.drop k).Pairwise (fun a b => b < a) := by
    rw [List.take_append_drop]; exact hs
  rw [List.pairwise_append] at hp
  exact fun s hsm d hdm => hp.2.2 s hsm d hdm

theorem runPipeline_abort_subset (fails : StepName → Bool) (s : StepName)
    (hf : fails s = true) (hp : isFatalStep s = true) :
    ∀ l1 l2, (runPipeline fails (l1 ++ s :: l2)).1 ⊆ l1 ++ [s] := by
  intro l1
  induction l1 with
  | nil =>
      intro l2
      simp [runPipeline, hf, hp]
  | cons a t ih =>
      intro l2
      by_cases h : fails a && isFatalStep a
      · rw [List.cons_append]
        simp only [runPipeline, h, if_pos]
        intro x hx
        simp only [List.mem_singleton] at hx
        subst hx
        simp
      · rw [List.cons_append]
        simp only [runPipeline, h, if_neg, Bool.false_eq_true, not_false_iff]
        exact List.cons_subset_cons a (ih l2)

theorem runPipeline_next_executes (fails : StepName → Bool) (s t : StepName)
    (hp : isFatalStep s = false) :
    ∀ l1 l2, (l1 ++ s :: t :: l2).Nodup →
      s ∈ (runPipeline fails (l1 ++ s :: t :: l2)).1 →
      t ∈ (runPipeline fails (l1 ++ s :: t :: l2)).1 := by
  intro l1
  induction l1 with
  | nil =>
      intro l2 _ _
      simp only [List.nil_append]
      have hcond : (fails s && isFatalStep s) = false := by
        rw [hp]; simp
      simp only [runPipeline, hcond, Bool.false_eq_true, if_neg, not_false_iff]
      by_cases h : fails t && isFatalStep t
      · simp [runPipeline, h]
      · simp [runPipeline, h]
  | cons a l1 ih =>
      intro l2 hnd hs
      rw [List.cons_append] at hnd hs ⊢
      have hmem : s ∈ l1 ++ s :: t :: l2 := by
        simp
      by_cases h : fails a && isFatalStep a
      · exfalso
        simp only [runPipeline, h, if_pos] at hs
        simp only [List.mem_singleton] at hs
        subst hs
        exact (List.nodup_cons.mp hnd).1 hmem
      · simp only [runPipeline, h, Bool.false_eq_true, if_neg, not_false_iff] at hs ⊢
        rcases List.mem_cons.mp hs with hsa | hsrec
        · exfalso
          subst hsa
          exact (List.nodup_cons.mp hnd).1 hmem
        · exact List.mem_cons_of_mem a (ih l2 (List.nodup_cons.mp hnd).2 hsrec)

theorem jsLastIndexOf_trailing (u : List Char) :
    jsLastIndexOfChar '/' (u ++ [('/' : Char)])
      = ((u ++ [('/' : Char)]).length : Int) - 1 := by
  unfold jsLastIndexOfChar
  have hrev : (u ++ [('/' : Char)]).reverse = '/' :: u.reverse := by
    simp
  rw [hrev]
  simp [List.findIdx?_cons]

theorem jsSlice_nat_negOne (l : List Char) (n : Nat) :
    jsSlice l ((n : Nat) : Int) (-1)
      = (l.take (l.length - 1)).drop (min n l.length) := by
  unfold jsSlice
  have h1 : ¬ ((n : Int) < 0) := by omega
  rw [if_neg h1, if_pos (by norm_num : (-1 : Int) < 0)]
  have h2 : (min ((n : Nat) : Int) ((l.length : Nat) : Int)).toNat = min n l.length := by
    omega
  have h3 : (max (((l.length : Nat) : Int) + (-1)) 0).toNat = l.length - 1 := by
    omega
  rw [h2, h3]

theorem extractToken_eq (u t : List Char) (ht : t.length = 14) :
    extractToken (u ++ t ++ [('/' : Char)]) = t := by
  have hlast := jsLastIndexOf_trailing (u ++ t)
  have hlen : (u ++ t ++ [('/' : Char)]).length = u.length + 15 := by
    simp [ht]
  unfold extractToken
  rw [show u ++ t ++ [('/' : Char)] = (u ++ t) ++ [('/' : Char)] from rfl, hlast]
  rw [show ((u ++ t) ++ [('/' : Char)]).length = u.length + 15 from hlen]
  rw [show ((u.length + 15 : Nat) : Int) - 1 - 14 = ((u.length : Nat) : Int) by push_cast; ring]
  rw [jsSlice_nat_negOne]
  rw [show ((u ++ t) ++ [('/' : Char)]).length = u.length + 15 from hlen]
  rw [show min u.length (u.length + 15) = u.length by omega]
  rw [show u.length + 15 - 1 = u.length + 14 by omega]
  have htake : (((u ++ t) ++ [('/' : Char)]).take (u.length + 14)) = u ++ t := by
    apply List.take_left'
    simp [ht]
  rw [htake]
  exact List.drop_left u t

/-- C6: the remote executor `asyncWrapper` resolves, with the combined
captured stdout (whitespace-trimmed), exactly when the remote process
exits with code 0; a non-zero exit rejects with a message carrying the
exit code and the captured stderr, and an exec-callback failure also
rejects; each stderr chunk is classified error-severity exactly when its
lowercased text contains the token `error`, every other chunk being a
warning; and one invocation spawns exactly one remote process, never
retrying. -/
theorem C6_asyncWrapper_contract :
    (∀ c r, (asyncWrapper c (ExecOutcome.ran r)).isResolved = (r.exitCode == 0)) ∧
    (∀ c r, asyncWrapper c (ExecOutcome.ran r)
        = (if r.exitCode = 0 then
             AsyncResult.resolved ((String.join r.stdoutChunks).trim)
           else
             AsyncResult.rejected
               (("Command failed with code ") ++ toString r.exitCode ++ (": ")
                 ++ (String.join r.stderrChunks).trim))) ∧
    (∀ c m, (asyncWrapper c (ExecOutcome.execFailed m)).isResolved = false) ∧
    (∀ chunk, stderrSeverity chunk = Severity.error
        ↔ ∃ pre post, chunk.data.map Char.toLower
            = pre ++ (String.data ("error") ++ post)) ∧
    (∀ c o, (asyncWrapperExecCalls c o).length = 1) := by
  refine ⟨?_, ?_, ?_, ?_, ?_⟩
  · intro c r
    by_cases h : r.exitCode = 0 <;>
      simp [asyncWrapper, AsyncResult.isResolved, h]
  · intro c r
    by_cases h : r.exitCode = 0 <;>
      simp [asyncWrapper, h]
  · intro c m
    rfl
  · intro chunk
    unfold stderrSeverity
    by_cases h : charListContains (chunk.data.map Char.toLower)
        (String.data ("error")) = true
    · rw [if_pos h]
      exact iff_of_true rfl ((charListContains_iff _ _).mp h)
    · rw [if_neg h]
      apply iff_of_false
      · intro hcon
        exact Severity.noConfusion hcon
      · rintro ⟨pre, post, he⟩
        exact h ((charListContains_iff _ _).mpr ⟨pre, post, he⟩)
  · intro c o
    rfl

/-- C7: the deploy-via key is resolved through the static
`deployerMapping`: exactly the four keys `git`, `copy`, `remoteCache` and
`remoteSync` are mapped, each to its own implementation; any other key
makes the `Shokan` constructor fail (before a connection exists) and
makes `Einsatz.deploy` raise `Unsupported deploy method` with no deployer
ever run — the only component that touches remote project state. -/
theorem C7_deployerSelection :
    (∀ k, (deployerMapping k).isNone
        = (!((k == ("git")) || (k == ("copy")) || (k == ("remoteCache"))
             || (k == ("remoteSync"))))) ∧
    deployerMapping ("git") = some DeployerKind.git ∧
    deployerMapping ("copy") = some DeployerKind.copy ∧
    deployerMapping ("remoteCache") = some DeployerKind.remoteCache ∧
    deployerMapping ("remoteSync") = some DeployerKind.remoteSync ∧
    (∀ k, exceptIsOk (shokanConstructor k) = (deployerMapping k).isSome) ∧
    (∀ k b, (einsatzDeploy k b).deployerRan
        = (if (b.connectOk && b.agentOk) = true then deployerMapping k else none)) ∧
    (∀ k b, deployerMapping k = none → b.connectOk = true → b.agentOk = true →
        einsatzDeployBody k b
          = (true, none, Except.error (("Unsupported deploy method: ") ++ k))) := by
  refine ⟨?_, rfl, rfl, rfl, rfl, ?_, ?_, ?_⟩
  · intro k
    unfold deployerMapping
    split_ifs with h1 h2 h3 h4 <;> simp [*]
  · intro k
    unfold shokanConstructor exceptIsOk
    cases hm : deployerMapping k <;> simp
  · intro k b
    rcases b with ⟨co, ao, dok⟩
    cases co <;> cases ao <;> cases dok <;>
      rcases hm : deployerMapping k with _ | d <;>
        simp [einsatzDeploy, einsatzDeployBody, handleError, hm]
  · intro k b h1 h2 h3
    rcases b with ⟨co, ao, dok⟩
    simp only at h2 h3
    subst h2
    subst h3
    cases dok <;> simp [einsatzDeployBody, h1]

/-- Witness for C7 at the concrete unmapped key `ftp`. -/
theorem C7_witness :
    einsatzDeployBody ("ftp")
        { connectOk := true, agentOk := true, deployOk := true }
      = (true, none, Except.error ("Unsupported deploy method: ftp")) := by
  have h := C7_deployerSelection
  exact h.2.2.2.2.2.2.2 ("ftp")
    { connectOk := true, agentOk := true, deployOk := true }
    (by decide) rfl rfl

/-- C8: on every execution of the deploy operation, in both the
`Einsatz` and the `Shokan` variant, the finally block closes the remote
session exactly when one was established — no exit path, including the
failing ones, leaves an established session open. -/
theorem C8_sessionTeardown :
    (∀ deployVia b, (einsatzDeploy deployVia b).connClosed
        = (einsatzDeploy deployVia b).connEstablished) ∧
    (∀ connectOk fails, (shokanDeploy connectOk fails).connClosed = connectOk) := by
  constructor
  · intro v b
    unfold einsatzDeploy
    rcases hb : einsatzDeployBody v b with ⟨est, ran, r⟩
    rcases r with e | u
    · simp [handleError]
    · cases u
      simp
  · intro c f
    cases c <;> simp [shokanDeploy]

/-- C10 (code bug witness): contrary to the claim that the top-level
catch of `Einsatz.deploy` consumes every error so the returned promise
always resolves, the catch calls the three-parameter `handleError` with
only two arguments; `handleError` then reads `.stdout` of `undefined` and
throws a TypeError, so the promise rejects whenever any error occurs
(unsupported deploy key, deployer failure, or connection failure), and
resolves only on a fully successful run. -/
theorem C10_deployRejectsOnFailure :
    (einsatzDeploy ("ftp")
        { connectOk := true, agentOk := true, deployOk := true }).result
      = PromiseResult.rejected typeErrorStdoutMsg ∧
    (einsatzDeploy ("git")
        { connectOk := true, agentOk := true, deployOk := false }).result
      = PromiseResult.rejected typeErrorStdoutMsg ∧
    (einsatzDeploy ("git")
        { connectOk := false, agentOk := true, deployOk := true }).result
      = PromiseResult.rejected typeErrorStdoutMsg ∧
    (einsatzDeploy ("git")
        { connectOk := true, agentOk := true, deployOk := true }).result
      = PromiseResult.resolved := by
  exact ⟨rfl, rfl, rfl, rfl⟩

/-- C5: in `Shokan.deploy`, a failure in any fatal early step (through
revision stamping) aborts the pipeline — no step that comes later in the
pipeline ever executes, while the session teardown still runs — whereas a
failure in any later best-effort step is logged and does not prevent the
immediately following step (and hence the rest of the pipeline) from
attempting to run. -/
theorem C5_pipelineFailurePolicy :
    (∀ (fails : StepName → Bool) (l1 l2 : List StepName) (s t : StepName),
        shokanPipeline = l1 ++ s :: l2 → isFatalStep s = true → fails s = true →
        t ∈ l2 →
        ((shokanDeploy true fails).executed.contains t = false ∧
         (shokanDeploy true fails).connClosed = true)) ∧
    (∀ (fails : StepName → Bool) (l1 l2 : List StepName) (s t : StepName),
        shokanPipeline = l1 ++ s :: t :: l2 → isFatalStep s = false →
        s ∈ (shokanDeploy true fails).executed →
        t ∈ (shokanDeploy true fails).executed) := by
  have hexe : ∀ fails, (shokanDeploy true fails).executed
      = (runPipeline fails shokanPipeline).1 := by
    intro fails
    simp [shokanDeploy]
  constructor
  · intro fails l1 l2 s t hdec hfatal hfail ht
    have hnd : shokanPipeline.Nodup := by decide
    rw [hdec] at hnd
    rw [List.nodup_append] at hnd
    constructor
    · rw [hexe, hdec]
      apply contains_eq_false_of_not_mem
      intro hmem
      have hsub := runPipeline_abort_subset fails s hfail hfatal l1 l2 hmem
      rcases List.mem_append.mp hsub with h1 | h2
      · exact hnd.2.2 h1 (List.mem_cons_of_mem s ht)
      · have hts : t = s := by simpa using h2
        subst hts
        exact (List.nodup_cons.mp hnd.2.1).1 ht
    · simp [shokanDeploy]
  · intro fails l1 l2 s t hdec hbe hs
    have hnd : shokanPipeline.Nodup := by decide
    rw [hdec] at hnd
    rw [hexe, hdec] at hs ⊢
    exact runPipeline_next_executes fails s t hbe l1 l2 hnd hs

/-- Witness for C5: with `createReleaseDir` failing, the promotion step
never runs but the connection still closes; with `npmInstall` failing,
the following `assetsPrecompile` step still runs. -/
theorem C5_witness :
    ((shokanDeploy true (fun s => s == StepName.createReleaseDir)).executed.contains
        StepName.symlinkRelease = false) ∧
    ((shokanDeploy true (fun s => s == StepName.createReleaseDir)).connClosed = true) ∧
    (StepName.assetsPrecompile
      ∈ (shokanDeploy true (fun s => s == StepName.npmInstall)).executed) := by
  have h := C5_pipelineFailurePolicy
  have ha := h.1 (fun s => s == StepName.createReleaseDir)
    [StepName.agentTest, StepName.checkDirectories, StepName.checkLinkedDirs,
     StepName.makeLinkedDirs]
    [StepName.deployerDeploy, StepName.setCurrentRevision,
     StepName.setCurrentRevisionTime, StepName.symlinkLinkedFiles,
     StepName.symlinkLinkedDirs, StepName.npmConfig, StepName.npmInstall,
     StepName.assetsPrecompile, StepName.backupPackageJson, StepName.migrate,
     StepName.migrating, StepName.symlinkRelease, StepName.restartApplication,
     StepName.cleanupOldReleases, StepName.logRevision,
     StepName.symlinkPublicResources]
    StepName.createReleaseDir StepName.symlinkRelease
    rfl (by decide) (by decide) (by decide)
  have hb := h.2 (fun s => s == StepName.npmInstall)
    [StepName.agentTest, StepName.checkDirectories, StepName.checkLinkedDirs,
     StepName.makeLinkedDirs, StepName.createReleaseDir, StepName.deployerDeploy,
     StepName.setCurrentRevision, StepName.setCurrentRevisionTime,
     StepName.symlinkLinkedFiles, StepName.symlinkLinkedDirs, StepName.npmConfig]
    [StepName.backupPackageJson, StepName.migrate, StepName.migrating,
     StepName.symlinkRelease, StepName.restartApplication,
     StepName.cleanupOldReleases, StepName.logRevision,
     StepName.symlinkPublicResources]
    StepName.npmInstall StepName.assetsPrecompile
    rfl (by decide) (by decide)
  exact ⟨ha.1, ha.2, hb⟩

/-- C2: for every retention count `k` and every newest-first listing of
release directories (distinct tokens, ordered descending by token, as
`ls -1t` produces when modification order matches token order),
`cleanupOldReleases` keeps exactly the first `k` listed releases: at most
`k` survive, every survivor has a strictly greater token than every
deleted release, and survivors plus deleted partition the listing. -/
theorem C2_cleanupRetention (listing : List String) (k : Nat)
    (hsorted : listing.Sorted (fun a b => b < a)) (hnodup : listing.Nodup) :
    cleanupOldReleases listing k = listing.take k ∧
    (cleanupOldReleases listing k).length ≤ k ∧
    (∀ s ∈ cleanupOldReleases listing k, ∀ d ∈ cleanupDeleted listing k, d < s) ∧
    cleanupOldReleases listing k ++ cleanupDeleted listing k = listing := by
  have he := cleanup_eq_take listing k hnodup
  refine ⟨he, ?_, ?_, ?_⟩
  · rw [he, List.length_take]
    exact min_le_left _ _
  · rw [he]
    exact sorted_take_drop_lt listing k hsorted
  · rw [he]
    exact List.take_append_drop k listing

/-- Witness for C2 on a three-release history with retention 2. -/
theorem C2_witness :
    cleanupOldReleases
        [("20240103000000"), ("20240102000000"), ("20240101000000")] 2
      = [("20240103000000"), ("20240102000000")] ∧
    (cleanupOldReleases
        [("20240103000000"), ("20240102000000"), ("20240101000000")] 2).length ≤ 2 := by
  have hs : List.Pairwise (fun a b : String => b.toList < a.toList)
      [("20240103000000"), ("20240102000000"), ("20240101000000")] := by decide
  have h := C2_cleanupRetention
    [("20240103000000"), ("20240102000000"), ("20240101000000")] 2
    (hs.imp (fun hab => String.lt_iff_toList_lt.mpr hab)) (by decide)
  exact ⟨h.1, h.2.1⟩

/-- C9: `getReleaseIds` derives each release token by taking the fixed
14-character slice immediately preceding the trailing path separator of
each (trimmed, first-slash-stripped) directory entry, and returns the
tokens in the same order as the directory listing. -/
theorem C9_tokenExtraction (resp : List Char)
    (pairs : List (List Char × List Char))
    (hdec : parseDirectories resp
      = pairs.map (fun p => p.1 ++ p.2 ++ [('/' : Char)]))
    (hlen : ∀ p ∈ pairs, (p.2).length = 14) :
    getReleaseIds resp = pairs.map (fun p => p.2) := by
  unfold getReleaseIds
  rw [hdec, List.map_map]
  apply List.map_congr_left
  intro p hp
  exact extractToken_eq p.1 p.2 (hlen p hp)

/-- Witness for C9 on a concrete two-line `ls -d` response. -/
theorem C9_witness :
    getReleaseIds (String.data
        ("/apps/x/releases/20240101010101/\n/apps/x/releases/20240202020202/"))
      = [String.data ("20240101010101"), String.data ("20240202020202")] := by
  have h := C9_tokenExtraction
    (String.data
      ("/apps/x/releases/20240101010101/\n/apps/x/releases/20240202020202/"))
    [((String.data ("apps/x/releases/")), (String.data ("20240101010101"))),
     ((String.data ("apps/x/releases/")), (String.data ("20240202020202")))]
    (by decide) (by decide)
  exact h

/-- C1 (code bug witness): `Einsatz.rollback` never performs the
rollback the claim describes.  Its first step always throws
`ReferenceError: fs is not defined` (the module never imports `fs`), so
the selection of the previous release, the nothing-to-roll-back report
and the not-found report are all unreachable; the remaining blocks throw
ReferenceErrors for `previousRelease` (assigned but never declared) and
`currentRelease` (block-scoped to the first try).  Every error is merely
logged: the state — Current Pointer, releases, revision log — is left
unchanged on every input, as the concrete `[A,B,C]`-with-current-at-`B`
run shows. -/
theorem C1_rollbackInert :
    (∀ st, rollbackStep1 st
        = RollbackStep1.threw ("ReferenceError: fs is not defined")) ∧
    (∀ st, (einsatzRollback st).state = st) ∧
    ((einsatzRollback
        { current := some ("20240102000000"),
          releases := [("20240101000000"), ("20240102000000"), ("20240103000000")],
          revisionLog := [] }).stepErrors
      = [("Error getting releases: ReferenceError: fs is not defined"),
         ("Error symlinking previous release: ReferenceError: previousRelease is not defined"),
         ("Error writing revisions log: ReferenceError: currentRelease is not defined")]) := by
  refine ⟨fun st => rfl, fun st => rfl, rfl⟩

/-- C3 (code bug witness): `Einsatz.switchRelease` never appends a
revision-log entry (the `echo` command reads `currentRelease`, which is
block-scoped to the first try, so that step always throws a
ReferenceError), and its `ln -s` carries no `-f`/`-n` flags, so the
Current Pointer is re-pointed only when it does not exist yet; when
`current` already exists the command fails with `File exists` and the
pointer keeps its old target, as the concrete run shows. -/
theorem C3_switchReleaseRuntime :
    (∀ st r, (einsatzSwitchRelease st r).state.revisionLog = st.revisionLog) ∧
    (∀ st r, (einsatzSwitchRelease st r).state.current = some (st.current.getD r)) ∧
    ((einsatzSwitchRelease
        { current := some ("20240101000000"),
          releases := [("20240101000000"), ("20240102000000")],
          revisionLog := [] }
        ("20240102000000")).state.current = some ("20240101000000")) ∧
    ((einsatzSwitchRelease
        { current := some ("20240101000000"),
          releases := [("20240101000000"), ("20240102000000")],
          revisionLog := [] }
        ("20240102000000")).stepErrors
      = [("Error getting current release: ReferenceError: fs is not defined"),
         ("Error symlinking requested release: Command failed with code 1: ln: failed to create symbolic link: File exists"),
         ("Error writing revisions log: ReferenceError: currentRelease is not defined")]) := by
  refine ⟨?_, ?_, rfl, rfl⟩
  · intro st r
    cases hc : st.current <;> simp [einsatzSwitchRelease, lnsCurrent, hc]
  · intro st r
    cases hc : st.current <;> simp [einsatzSwitchRelease, lnsCurrent, hc]

/-- C4 counterexample: with an existing `current` link, the mutation
performed by `switchRelease` is not a link-replace that succeeds — the
plain `ln -s` exits 1 with `File exists`, the pointer is not re-pointed
to the requested release, and the failure is logged — refuting the claim
that every Current-Pointer mutation succeeds even when the link already
exists. -/
theorem C4_counterexample :
    ((einsatzSwitchRelease
        { current := some ("20250101000000"),
          releases := [("20250101000000"), ("20250202000000")],
          revisionLog := [] }
        ("20250202000000")).state.current == some ("20250202000000")) = false ∧
    ((einsatzSwitchRelease
        { current := some ("20250101000000"),
          releases := [("20250101000000"), ("20250202000000")],
          revisionLog := [] }
        ("20250202000000")).state.current = some ("20250101000000")) ∧
    ((einsatzSwitchRelease
        { current := some ("20250101000000"),
          releases := [("20250101000000"), ("20250202000000")],
          revisionLog := [] }
        ("20250202000000")).stepErrors.contains
        ("Error symlinking requested release: Command failed with code 1: ln: failed to create symbolic link: File exists")
      = true) := by
  refine ⟨by decide, rfl, by decide⟩

/-- C4 (amended): the Current Pointer is mutated only by the promote,
rollback and switch operations, and none of them ever leaves the pointer
missing: promotion (`ln -sfn`) always succeeds and re-points the link,
also when it already exists; `switchRelease` (plain `ln -s`) creates the
link only when it is absent and otherwise fails leaving it unchanged; and
`rollback` never reaches its link command, leaving the pointer untouched. -/
theorem C4_currentPointerMutations :
    (∀ st tok, (symlinkRelease st tok).current = some tok) ∧
    (∀ st tok, ((symlinkRelease st tok).current).isSome = true) ∧
    (∀ st tok, (symlinkRelease st tok).releases = st.releases
        ∧ (symlinkRelease st tok).revisionLog = st.revisionLog) ∧
    (∀ st r, (einsatzSwitchRelease st r).state.current = some (st.current.getD r)) ∧
    (∀ st r, ((einsatzSwitchRelease st r).state.current).isSome = true) ∧
    (∀ st, (einsatzRollback st).state.current = st.current) := by
  refine ⟨fun st tok => rfl, fun st tok => rfl, fun st tok => ⟨rfl, rfl⟩, ?_, ?_, fun st => rfl⟩
  · intro st r
    cases hc : st.current <;> simp [einsatzSwitchRelease, lnsCurrent, hc]
  · intro st r
    cases hc : st.current <;> simp [einsatzSwitchRelease, lnsCurrent, hc]
